import Mathlib

/-!
# A verification development for the `seqsearch` BLAST wrapper

This file gives a shallow embedding, in Lean 4, of the command-construction,
dispatch, parameter-building and result-filtering logic of the `seqsearch`
package (`seqsearch/__init__.py` and `seqsearch/blast.py`, Python 2.7), and
proves properties of that embedding.

Conventions of the embedding:
* Python dictionaries appear as association lists in iteration order
  (`dictSet` models `d[k] = v`: it updates the first occurrence in place or
  appends a fresh key at the end, exactly the observable iteration behaviour).
* Python floats appear as rationals (`ℚ`); no floating-point rounding is
  relevant to any of the code paths modelled here, which only ever multiply a
  threshold by 100 and compare.
* Python 2 mixed-type ordering is modelled by `py2lt` on `PyVal`: CPython 2
  orders any number below any string (both by the numeric special case and by
  the type-name ordering, since "float" and "int" precede "str"), so a string
  is never `<` a number.
* Exceptions appear as `Except PyError`, with `PyError` distinguishing
  `KeyError`, `ValueError`, `IndexError` and plain `Exception`.
* The filesystem side effects of `BLASTquery.filter` appear as a trace of
  abstract operations (`FSOp`), interpreted over a two-file state (`FSState`)
  by `fsRun`; an interruption of the filter after `n` steps corresponds to
  executing `trace.take n`.
-/

/-- A Python 2 value as it occurs in the modelled code: a string, an int, or a
float (represented by its rational value). -/
inductive PyVal where
  | str (s : String)
  | int (n : Int)
  | rat (q : ℚ)
deriving DecidableEq

/-- Byte-wise (here: code-point-wise) lexicographic order on character lists,
modelling Python 2 `str` comparison. -/
def charListLt : List Char → List Char → Bool
  | [], [] => false
  | [], _ :: _ => true
  | _ :: _, [] => false
  | x :: xs, y :: ys =>
    if x.val < y.val then true
    else if y.val < x.val then false
    else charListLt xs ys

/-- Python 2 `<` restricted to numbers and strings: numbers compare
arithmetically, strings lexicographically, and in a mixed comparison every
number is below every string (CPython 2 default ordering). In particular a
string is never `<` a number. -/
def py2lt : PyVal → PyVal → Bool
  | .str x, .str y => charListLt x.toList y.toList
  | .str _, .int _ => false
  | .str _, .rat _ => false
  | .int _, .str _ => true
  | .rat _, .str _ => true
  | .int m, .int n => decide (m < n)
  | .int m, .rat q => decide ((m : ℚ) < q)
  | .rat q, .int n => decide (q < (n : ℚ))
  | .rat p, .rat q => decide (p < q)

/-- `str.split()` helper: accumulate the current word (reversed) while
scanning. Python's no-argument `split` separates on runs of whitespace and
produces no empty fields. -/
def splitWsAux : List Char → List Char → List String
  | [], acc => if acc.isEmpty then [] else [String.mk acc.reverse]
  | c :: rest, acc =>
    if c.isWhitespace then
      if acc.isEmpty then splitWsAux rest []
      else String.mk acc.reverse :: splitWsAux rest []
    else splitWsAux rest (c :: acc)

/-- Python `s.split()` (no argument): split on runs of whitespace, discarding
empty fields. -/
def pySplitWs (s : String) : List String := splitWsAux s.toList []

/-- Python `s.strip(c)` for a single character `c`: drop every leading and
trailing occurrence of `c`. -/
def pyStripChar (c : Char) (s : String) : String :=
  String.mk (((s.toList.dropWhile (· = c)).reverse.dropWhile (· = c)).reverse)

/-- Does the second character list lead the first, i.e. is `pat` a leading
segment of `txt`? -/
def leadsWith : List Char → List Char → Bool
  | [], _ => true
  | _ :: _, [] => false
  | a :: pat, b :: txt => a = b && leadsWith pat txt

/-- Does `txt` contain `pat` as a contiguous segment? -/
def hasSub : List Char → List Char → Bool
  | [], pat => leadsWith pat []
  | c :: rest, pat => leadsWith pat (c :: rest) || hasSub rest pat

/-- Python `sub in s` on strings: substring containment. (The empty string is
contained in everything.) -/
def strContains (s sub : String) : Bool :=
  hasSub s.toList sub.toList

/-- The exceptions that the modelled code paths can raise. -/
inductive PyError where
  | keyError (key : String)
  | valueError (msg : String)
  | indexError
  | exception (msg : String)
deriving DecidableEq

instance {ε α : Type} [DecidableEq ε] [DecidableEq α] : DecidableEq (Except ε α) :=
  fun a b =>
    match a, b with
    | .ok x, .ok y =>
      if h : x = y then .isTrue (by rw [h]) else .isFalse (by intro hc; cases hc; exact h rfl)
    | .error x, .error y =>
      if h : x = y then .isTrue (by rw [h]) else .isFalse (by intro hc; cases hc; exact h rfl)
    | .ok _, .error _ => .isFalse (by intro hc; cases hc)
    | .error _, .ok _ => .isFalse (by intro hc; cases hc)

/-- The message CPython 2.7's `list.index` puts in its `ValueError`. -/
def idxErrMsg : String := "list.index(x): x not in list"

/-- Python `list.index(x)`: index of the first occurrence, `ValueError` when
absent. -/
def pyIndex (xs : List String) (x : String) : Except PyError Nat :=
  match xs with
  | [] => .error (.valueError idxErrMsg)
  | a :: rest =>
    if a = x then .ok 0
    else
      match pyIndex rest x with
      | .ok i => .ok (i + 1)
      | .error e => .error e

/-- Python `fields[i]` on a list, with signed indices: a negative index counts
from the end; out of range raises `IndexError`. -/
def pyGetField (fields : List String) (i : Int) : Except PyError String :=
  let j : Int := if i < 0 then i + fields.length else i
  if j < 0 then .error .indexError
  else
    match fields.get? j.toNat with
    | some v => .ok v
    | none => .error .indexError

/-- Python dict lookup `d[k]` on the association-list model (first occurrence
wins; a well-formed dict has unique keys). -/
def dictGet? : List (String × PyVal) → String → Option PyVal
  | [], _ => none
  | (k2, v) :: rest, k => if k2 = k then some v else dictGet? rest k

/-- Python dict assignment `d[k] = v` on the association-list model: replace
the first binding of `k` in place, or append a fresh binding at the end —
exactly the iteration-order behaviour of a Python dict. -/
def dictSet : List (String × PyVal) → String → PyVal → List (String × PyVal)
  | [], k, v => [(k, v)]
  | (k2, v2) :: rest, k, v =>
    if k2 = k then (k, v) :: rest
    else (k2, v2) :: dictSet rest k v

/-- The filtering-options mapping (`SeqSearch.filtering` / the `filtering`
argument of `BLASTquery.filter`). Per the data model, `e_value` and the two
thresholds are floats and `max_targets` is an int; an absent key is `none`. -/
structure Filtering where
  e_value : Option ℚ := none
  max_targets : Option Int := none
  min_coverage : Option ℚ := none
  min_identity : Option ℚ := none

/-- `SeqSearch.blast_params` (`__init__.py` lines 94-101): copy the base
params dict, then translate `e_value` to `-evalue` and `max_targets` to
`-max_target_seqs`. The `.copy()` in the source is what makes this method a
pure function of its inputs: the caller's base mapping is left untouched. -/
def blast_params (params : List (String × PyVal)) (filtering : Filtering) :
    List (String × PyVal) :=
  let p := params
  let p := match filtering.e_value with
    | some v => dictSet p "-evalue" (.rat v)
    | none => p
  let p := match filtering.max_targets with
    | some v => dictSet p "-max_target_seqs" (.int v)
    | none => p
  p

/-- `SeqSearch.select_blast_algo` lines 106-109, as a function of the observed
pair (query sequence type, database sequence type): a four-way exact match
with a fall-through — a Python function that reaches its end returns `None`,
modelled as `none`. -/
def select_blast_algo (seq_type db_seq_type : String) : Option String :=
  if seq_type = "nucl" ∧ db_seq_type = "nucl" then some "blastn"
  else if seq_type = "prot" ∧ db_seq_type = "prot" then some "blastp"
  else if seq_type = "nucl" ∧ db_seq_type = "prot" then some "blastx"
  else if seq_type = "prot" ∧ db_seq_type = "nucl" then some "tblastn"
  else none

/-- A reference to the database object held in `SeqSearch.database`: either
the caller-supplied value or a `BLASTdb` wrapper built around one. -/
inductive DBRef where
  | supplied (path : String)
  | blastdb (inner : DBRef) (dbtype : String)
deriving DecidableEq

/-- The mutable consumer state that `select_blast_algo` touches. -/
structure SeqSearchState where
  seq_type : String
  database : DBRef
deriving DecidableEq

/-- `SeqSearch.select_blast_algo` lines 103-109 as a state transformer: the
method first rebinds `self.database` to `BLASTdb(self.database)` — the
`BLASTdb.__init__` default `dbtype='nucl' or 'prot'` evaluates to `'nucl'` —
and only then matches on the type pair. The attribute read
`self.database.seq_type` on the fresh wrapper resolves outside this repository
(in the external `fasta` base class), so it is passed in as `dbAttr`. -/
def select_blast_algo_method (dbAttr : DBRef → String) (s : SeqSearchState) :
    SeqSearchState × Option String :=
  let s2 : SeqSearchState := { s with database := DBRef.blastdb s.database "nucl" }
  (s2, select_blast_algo s2.seq_type (dbAttr s2.database))

/-- `BLASTquery` (`blast.py` lines 36-58), restricted to the attributes that
`command` reads. `query` and `db` hold the paths: `str()` of the `FASTA` and
`FilePath` wrappers in the source is the wrapped path. `executable = none`
models the no-explicit-executable case, in which `if self.executable:` is
falsy. `params` values keep their Python type `V`; `ToString V` models
`str()`. -/
structure BLASTquery (V : Type) where
  query : String
  db : String
  out_path : String
  version : String
  algorithm : String
  params : List (String × V)
  executable : Option String
  cpus : Int

/-- `BLASTquery.command` (`blast.py` lines 60-72): executable or dialect
header, then the dialect's essential flags, then the extra parameters as
(flag, value) token pairs, everything passed through `str` (`map(str, cmd)`). -/
def BLASTquery.command {V : Type} [ToString V] (q : BLASTquery V) : List String :=
  let cmd : List String :=
    match q.executable with
    | some e => [e]
    | none =>
      if q.version = "legacy" then ["blastall", "-p", q.algorithm]
      else [q.algorithm]
  let cmd :=
    if q.version = "legacy" then
      cmd ++ ["-d", q.db, "-i", q.query, "-o", q.out_path, "-a", toString q.cpus]
    else cmd
  let cmd :=
    if q.version = "plus" then
      cmd ++ ["-db", q.db, "-query", q.query, "-out", q.out_path, "-num_threads",
        toString q.cpus]
    else cmd
  cmd ++ q.params.flatMap (fun kv => [kv.1, toString kv.2])

/-- The message of the coverage precondition failure (`blast.py` line 93). -/
def covErrMsg : String := "Can't filter on minimum coverage because it wasn't included."

/-- The message of the identity precondition failure (`blast.py` line 95). -/
def idyErrMsg : String := "Can't filter on minimum identity because it wasn't included."

/-- `blast.py` lines 92-93: `if 'min_coverage' in filtering and 'qcovs' not in
self.params['-outfmt']: raise ...` — the `and` short-circuits, so the
`'-outfmt'` lookup (a possible `KeyError`) only happens when the threshold is
requested; containment is a substring test on the format string. -/
def checkCoverage (filtering : Filtering) (outfmt : Option String) : Except PyError Unit :=
  match filtering.min_coverage with
  | none => .ok ()
  | some _ =>
    match outfmt with
    | none => .error (.keyError "-outfmt")
    | some f => if strContains f "qcovs" then .ok () else .error (.exception covErrMsg)

/-- `blast.py` lines 94-95, the identity analogue of `checkCoverage`. -/
def checkIdentity (filtering : Filtering) (outfmt : Option String) : Except PyError Unit :=
  match filtering.min_identity with
  | none => .ok ()
  | some _ =>
    match outfmt with
    | none => .error (.keyError "-outfmt")
    | some f => if strContains f "pident" then .ok () else .error (.exception idyErrMsg)

/-- The whitespace tokens of the quote-stripped format string:
`self.params['-outfmt'].strip('"').split()` (`blast.py` lines 100-101). -/
def outfmtTokens (f : String) : List String := pySplitWs (pyStripChar '"' f)

/-- The body of the `for` loop of `filter_lines` (`blast.py` lines 102-107)
on one row: read the coverage and identity fields (possible `IndexError`),
then keep the row unless one of them is Python-2-`<` its threshold. The
fields are strings and the thresholds floats, so `py2lt` is `false` on both
tests. -/
def keepRow (cov_t idy_t : ℚ) (cov_pos idy_pos : Int) (line : String) :
    Except PyError Bool :=
  match pyGetField (pySplitWs line) cov_pos with
  | .error e => .error e
  | .ok coverage =>
    match pyGetField (pySplitWs line) idy_pos with
    | .error e => .error e
    | .ok identity =>
      if py2lt (.str coverage) (.rat cov_t) then .ok false
      else if py2lt (.str identity) (.rat idy_t) then .ok false
      else .ok true

/-- The row loop of the `filter_lines` generator (`blast.py` lines 102-107):
processed rows in file order; the first raising row aborts the stream. -/
def filter_lines (cov_t idy_t : ℚ) (cov_pos idy_pos : Int) :
    List String → Except PyError (List String)
  | [] => .ok []
  | line :: rest =>
    match keepRow cov_t idy_t cov_pos idy_pos line with
    | .error e => .error e
    | .ok keep =>
      match filter_lines cov_t idy_t cov_pos idy_pos rest with
      | .error e => .error e
      | .ok kept => .ok (if keep then line :: kept else kept)

/-- The filesystem operations `BLASTquery.filter` performs, in program order:
create/open the scratch temp file, open the output file for reading, write
the surviving rows to the temp file, `os.remove` the output file, and
`shutil.move` the temp file onto the output path. -/
inductive FSOp where
  | createTemp
  | readOut
  | writeTemp (rows : List String)
  | removeOut
  | moveTempToOut
deriving DecidableEq

/-- The two files `filter` touches: the search output file and the scratch
temp file; `none` means the file is absent. -/
structure FSState where
  out_file : Option (List String)
  temp_file : Option (List String)
deriving DecidableEq

/-- Effect of one filesystem operation on the two-file state. -/
def FSOp.apply : FSOp → FSState → FSState
  | .createTemp, st => { st with temp_file := some [] }
  | .readOut, st => st
  | .writeTemp rows, st => { st with temp_file := some rows }
  | .removeOut, st => { st with out_file := none }
  | .moveTempToOut, st => { out_file := st.temp_file, temp_file := none }

/-- Run a trace of filesystem operations from a state. An interruption of the
filter after `n` completed operations leaves the state `fsRun (trace.take n)`. -/
def fsRun (ops : List FSOp) (st : FSState) : FSState :=
  ops.foldl (fun s o => FSOp.apply o s) st

/-- `blast.py` lines 97-112 after the precondition checks: the temp file is
opened (line 110 `open(temp_path, 'w')`), then the generator body runs —
`'-outfmt'` lookup (`KeyError` when absent), `list.index` of both markers
(`ValueError` when a marker token is missing, computed unconditionally for
both, whatever thresholds were requested) — then the output file is streamed;
on success the survivors land in the temp file, the output file is removed
(line 111) and the temp file moved onto it (line 112). -/
def filterBody (filtering : Filtering) (outfmt : Option String) (lines : List String) :
    List FSOp × Except PyError (List String) :=
  match outfmt with
  | none => ([FSOp.createTemp], .error (.keyError "-outfmt"))
  | some f =>
    match pyIndex (outfmtTokens f) "qcovs" with
    | .error e => ([FSOp.createTemp], .error e)
    | .ok ci =>
      match pyIndex (outfmtTokens f) "pident" with
      | .error e => ([FSOp.createTemp], .error e)
      | .ok pj =>
        match filter_lines ((filtering.min_coverage.getD 0) * 100)
            ((filtering.min_identity.getD 0) * 100)
            ((ci : Int) - 1) ((pj : Int) - 1) lines with
        | .error e => ([FSOp.createTemp, FSOp.readOut], .error e)
        | .ok kept =>
          ([FSOp.createTemp, FSOp.readOut, FSOp.writeTemp kept, FSOp.removeOut,
            FSOp.moveTempToOut], .ok kept)

/-- `BLASTquery.filter` (`blast.py` lines 88-112): the two precondition
checks, then the temp-file/stream/remove/move sequence. The result is the
trace of filesystem operations performed together with the outcome (the
surviving rows on success, the raised exception otherwise). `outfmt` is the
`'-outfmt'` entry of `self.params` (`none` when the key is absent), the only
entry `filter` consults. -/
def BLASTquery.filter (filtering : Filtering) (outfmt : Option String)
    (lines : List String) : List FSOp × Except PyError (List String) :=
  match checkCoverage filtering outfmt with
  | .error e => ([], .error e)
  | .ok _ =>
    match checkIdentity filtering outfmt with
    | .error e => ([], .error e)
    | .ok _ => filterBody filtering outfmt lines

/-- A concrete filtering request asking for 97% minimum coverage. -/
def demoFiltering : Filtering := { min_coverage := some (97 / 100) }

/-- A concrete tabular output format containing both marker columns. -/
def demoOutfmt : String := "6 qseqid sseqid pident qcovs"

/-- Two concrete result rows, with coverage fields "95.0" and "100.0" and
identity fields "98.0". -/
def demoLines : List String := ["a b 98.0 95.0", "c d 98.0 100.0"]

/-- Build a `BLASTquery` with no explicit executable: the common construction
of the claims about `command`. -/
def mkQuery (V : Type) (version qp db out algo : String) (cpus : Int)
    (extras : List (String × V)) : BLASTquery V :=
  { query := qp, db := db, out_path := out, version := version,
    algorithm := algo, params := extras, executable := none, cpus := cpus }

/-- A concrete `BLASTquery` whose dialect tag is outside {legacy, plus}. -/
def c4query : BLASTquery Int :=
  mkQuery Int "bogus" "q.fasta" "db.fasta" "q.blastout" "blastn" 4 [("-x", 1)]

/-! ## Helper lemmas -/

theorem dictGet?_dictSet_self (d : List (String × PyVal)) (k : String) (v : PyVal) :
    dictGet? (dictSet d k v) k = some v := by
  induction d with
  | nil => simp [dictSet, dictGet?]
  | cons kv rest ih =>
    rcases kv with ⟨k2, v2⟩
    by_cases h : k2 = k
    · simp [dictSet, dictGet?, h]
    · simp [dictSet, dictGet?, h, ih]

theorem dictGet?_dictSet_other (d : List (String × PyVal)) (k k2 : String) (v : PyVal)
    (h : k2 ≠ k) : dictGet? (dictSet d k v) k2 = dictGet? d k2 := by
  induction d with
  | nil => simp [dictSet, dictGet?, Ne.symm h]
  | cons kv rest ih =>
    rcases kv with ⟨k3, v3⟩
    by_cases hk : k3 = k
    · subst hk
      simp [dictSet, dictGet?, Ne.symm h]
    · by_cases hk2 : k3 = k2
      · simp [dictSet, dictGet?, hk, hk2, h]
      · simp [dictSet, dictGet?, hk, hk2, ih]

theorem blastdb_ne (d : DBRef) (t : String) : DBRef.blastdb d t ≠ d := by
  induction d generalizing t with
  | supplied p => simp
  | blastdb inner t2 ih =>
    intro h
    injection h with h1 h2
    exact ih t2 h1

theorem pyIndex_not_mem (xs : List String) (x : String) (h : x ∉ xs) :
    pyIndex xs x = .error (.valueError idxErrMsg) := by
  induction xs with
  | nil => rfl
  | cons a rest ih =>
    have ha : ¬(a = x) := fun hax => h (hax ▸ List.mem_cons_self a rest)
    have hr : x ∉ rest := fun hx => h (List.mem_cons_of_mem a hx)
    simp [pyIndex, ha, ih hr]

theorem pyIndex_shape (xs : List String) (x : String) :
    (∃ i, pyIndex xs x = .ok i) ∨ pyIndex xs x = .error (.valueError idxErrMsg) := by
  induction xs with
  | nil => exact Or.inr rfl
  | cons a rest ih =>
    by_cases h : a = x
    · exact Or.inl ⟨0, by simp [pyIndex, h]⟩
    · rcases ih with ⟨i, hi⟩ | hi
      · exact Or.inl ⟨i + 1, by simp [pyIndex, h, hi]⟩
      · exact Or.inr (by simp [pyIndex, h, hi])

theorem filter_lines_idem (ct it : ℚ) (cp ip : Int) (lines kept : List String)
    (h : filter_lines ct it cp ip lines = .ok kept) :
    filter_lines ct it cp ip kept = .ok kept := by
  induction lines generalizing kept with
  | nil =>
    simp only [filter_lines] at h
    injection h with h2
    subst h2
    rfl
  | cons line rest ih =>
    simp only [filter_lines] at h
    cases hk : keepRow ct it cp ip line with
    | error e => rw [hk] at h; exact absurd h (by simp)
    | ok b =>
      rw [hk] at h
      cases hr : filter_lines ct it cp ip rest with
      | error e => rw [hr] at h; exact absurd h (by simp)
      | ok tailKept =>
        rw [hr] at h
        cases b with
        | true =>
          simp only [if_true] at h
          injection h with h2
          subst h2
          have h3 := ih tailKept hr
          simp only [filter_lines, hk, h3]
          simp
        | false =>
          simp only [if_false] at h
          injection h with h2
          subst h2
          exact ih tailKept hr

theorem filter_shape (filtering : Filtering) (outfmt : Option String) (lines : List String) :
    (∃ e, BLASTquery.filter filtering outfmt lines = ([], .error e))
  ∨ (∃ e, BLASTquery.filter filtering outfmt lines = ([FSOp.createTemp], .error e))
  ∨ (∃ e, BLASTquery.filter filtering outfmt lines = ([FSOp.createTemp, FSOp.readOut], .error e))
  ∨ (∃ kept, BLASTquery.filter filtering outfmt lines =
      ([FSOp.createTemp, FSOp.readOut, FSOp.writeTemp kept, FSOp.removeOut,
        FSOp.moveTempToOut], .ok kept)) := by
  cases hc : checkCoverage filtering outfmt with
  | error e => exact Or.inl ⟨e, by simp [BLASTquery.filter, hc]⟩
  | ok u =>
    cases hi : checkIdentity filtering outfmt with
    | error e => exact Or.inl ⟨e, by simp [BLASTquery.filter, hc, hi]⟩
    | ok u2 =>
      cases outfmt with
      | none =>
        exact Or.inr (Or.inl ⟨.keyError "-outfmt",
          by simp [BLASTquery.filter, filterBody, hc, hi]⟩)
      | some f =>
        cases hq : pyIndex (outfmtTokens f) "qcovs" with
        | error e =>
          exact Or.inr (Or.inl ⟨e, by simp [BLASTquery.filter, filterBody, hc, hi, hq]⟩)
        | ok ci =>
          cases hp : pyIndex (outfmtTokens f) "pident" with
          | error e =>
            exact Or.inr (Or.inl ⟨e, by simp [BLASTquery.filter, filterBody, hc, hi, hq, hp]⟩)
          | ok pj =>
            cases hl : filter_lines ((filtering.min_coverage.getD 0) * 100)
                ((filtering.min_identity.getD 0) * 100) ((ci : Int) - 1) ((pj : Int) - 1)
                lines with
            | error e =>
              exact Or.inr (Or.inr (Or.inl ⟨e,
                by simp [BLASTquery.filter, filterBody, hc, hi, hq, hp, hl]⟩))
            | ok kept =>
              exact Or.inr (Or.inr (Or.inr ⟨kept,
                by simp [BLASTquery.filter, filterBody, hc, hi, hq, hp, hl]⟩))

/-! ## Claim theorems -/

/-- Claim C2, counterexample part: for the unsupported pair ("dna", "nucl") the
selector does not fail — it falls through and returns Python `None` (here
`none`), a missing value, contradicting the claim that every unsupported pair
fails with a configuration error. -/
theorem C2_counterexample : select_blast_algo "dna" "nucl" = none := by rfl

/-- Claim C2 (amended): the four supported (query-type, db-type) pairs map to
blastn, blastp, blastx, tblastn respectively, and every other pair returns no
selection (Python `None`) rather than raising an error. -/
theorem C2_dispatcher_amended :
    select_blast_algo "nucl" "nucl" = some "blastn"
  ∧ select_blast_algo "prot" "prot" = some "blastp"
  ∧ select_blast_algo "nucl" "prot" = some "blastx"
  ∧ select_blast_algo "prot" "nucl" = some "tblastn"
  ∧ ∀ q d, ¬(q = "nucl" ∧ d = "nucl") → ¬(q = "prot" ∧ d = "prot") →
      ¬(q = "nucl" ∧ d = "prot") → ¬(q = "prot" ∧ d = "nucl") →
      select_blast_algo q d = none := by
  refine ⟨rfl, rfl, rfl, rfl, ?_⟩
  intro q d h1 h2 h3 h4
  simp only [select_blast_algo, if_neg h1, if_neg h2, if_neg h3, if_neg h4]

/-- Witness for C2's amended theorem at the pairs ("nucl","nucl") and
("rna","nucl"). -/
theorem C2_witness :
    select_blast_algo "nucl" "nucl" = some "blastn" ∧ select_blast_algo "rna" "nucl" = none :=
  ⟨C2_dispatcher_amended.1,
   C2_dispatcher_amended.2.2.2.2 "rna" "nucl" (by decide) (by decide) (by decide) (by decide)⟩

/-- Claim C3: for both dialects, with no explicit executable, the command is
the dialect header, the dialect's required flags in fixed order, then each
extra (flag, value) pair as two adjacent string tokens in iteration order. -/
theorem C3_command_schema (V : Type) [ToString V] (qp db out algo : String) (cpus : Int)
    (extras : List (String × V)) :
    ((mkQuery V "legacy" qp db out algo cpus extras).command =
      ["blastall", "-p", algo, "-d", db, "-i", qp, "-o", out, "-a", toString cpus]
        ++ extras.flatMap (fun kv => [kv.1, toString kv.2]))
  ∧ ((mkQuery V "plus" qp db out algo cpus extras).command =
      [algo, "-db", db, "-query", qp, "-out", out, "-num_threads", toString cpus]
        ++ extras.flatMap (fun kv => [kv.1, toString kv.2])) :=
  ⟨rfl, rfl⟩

/-- Claim C4, counterexample part: for the dialect tag "bogus" the command is
assembled without any error — it is the bare algorithm token followed by the
extra parameters, a token sequence, contradicting the claim that assembly
fails with an "unknown dialect" error. -/
theorem C4_counterexample : c4query.command = ["blastn", "-x", "1"] := by rfl

/-- Claim C4 (amended): for every dialect value outside {legacy, plus} with no
explicit executable, the assembled command is the algorithm token followed by
the extra (flag, value) pairs — no required flags and no error. -/
theorem C4_unknown_dialect_amended {V : Type} [ToString V] (q : BLASTquery V)
    (h1 : q.version ≠ "legacy") (h2 : q.version ≠ "plus") (h3 : q.executable = none) :
    q.command = q.algorithm :: q.params.flatMap (fun kv => [kv.1, toString kv.2]) := by
  simp [BLASTquery.command, h1, h2, h3]

/-- Witness for C4's amended theorem at the concrete query `c4query`. -/
theorem C4_witness :
    c4query.command = c4query.algorithm :: c4query.params.flatMap (fun kv => [kv.1, toString kv.2]) :=
  C4_unknown_dialect_amended c4query (by decide) (by decide) rfl

/-- Claim C10: every invocation of `select_blast_algo` rebinds the search
object's `database` attribute to a freshly constructed `BLASTdb` wrapper
around the caller-supplied reference (with the constructor's default dbtype
'nucl'), so the selector is a state mutation, not a pure function of the type
pair. -/
theorem C10_database_rebound (dbAttr : DBRef → String) (s : SeqSearchState) :
    (select_blast_algo_method dbAttr s).1.database = DBRef.blastdb s.database "nucl"
  ∧ (select_blast_algo_method dbAttr s).1.database ≠ s.database :=
  ⟨rfl, blastdb_ne s.database "nucl"⟩

/-- Claim C7: the derived blast parameter mapping is the base mapping with
`e_value` translated to `-evalue` and `max_targets` to `-max_target_seqs`;
keys other than the two translated flags are looked up unchanged, and absent
filtering keys leave the corresponding flag untouched. The base mapping is
not mutated: `blast_params` starts from a copy, so it is a pure function of
its arguments and `params` itself is unchanged. -/
theorem C7_blast_params_contract (params : List (String × PyVal)) (filtering : Filtering) :
    (∀ v, filtering.e_value = some v →
      dictGet? (blast_params params filtering) "-evalue" = some (.rat v))
  ∧ (filtering.e_value = none →
      dictGet? (blast_params params filtering) "-evalue" = dictGet? params "-evalue")
  ∧ (∀ v, filtering.max_targets = some v →
      dictGet? (blast_params params filtering) "-max_target_seqs" = some (.int v))
  ∧ (filtering.max_targets = none →
      dictGet? (blast_params params filtering) "-max_target_seqs" =
        dictGet? params "-max_target_seqs")
  ∧ (∀ k, k ≠ "-evalue" → k ≠ "-max_target_seqs" →
      dictGet? (blast_params params filtering) k = dictGet? params k) := by
  cases he : filtering.e_value with
  | none =>
    cases hm : filtering.max_targets with
    | none =>
      refine ⟨?_, ?_, ?_, ?_, ?_⟩
      · intro v hv; exact absurd hv (by simp)
      · intro _; simp [blast_params, he, hm]
      · intro v hv; exact absurd hv (by simp)
      · intro _; simp [blast_params, he, hm]
      · intro k h1 h2; simp [blast_params, he, hm]
    | some b =>
      refine ⟨?_, ?_, ?_, ?_, ?_⟩
      · intro v hv; exact absurd hv (by simp)
      · intro _
        simp only [blast_params, he, hm]
        exact dictGet?_dictSet_other params "-max_target_seqs" "-evalue" (.int b) (by decide)
      · intro v hv
        injection hv with hv2
        subst hv2
        simp only [blast_params, he, hm]
        exact dictGet?_dictSet_self params "-max_target_seqs" (.int b)
      · intro hv; exact absurd hv (by simp)
      · intro k h1 h2
        simp only [blast_params, he, hm]
        exact dictGet?_dictSet_other params "-max_target_seqs" k (.int b) h2
  | some a =>
    cases hm : filtering.max_targets with
    | none =>
      refine ⟨?_, ?_, ?_, ?_, ?_⟩
      · intro v hv
        injection hv with hv2
        subst hv2
        simp only [blast_params, he, hm]
        exact dictGet?_dictSet_self params "-evalue" (.rat a)
      · intro hv; exact absurd hv (by simp)
      · intro v hv; exact absurd hv (by simp)
      · intro _
        simp only [blast_params, he, hm]
        exact dictGet?_dictSet_other params "-evalue" "-max_target_seqs" (.rat a) (by decide)
      · intro k h1 h2
        simp only [blast_params, he, hm]
        exact dictGet?_dictSet_other params "-evalue" k (.rat a) h1
    | some b =>
      refine ⟨?_, ?_, ?_, ?_, ?_⟩
      · intro v hv
        injection hv with hv2
        subst hv2
        simp only [blast_params, he, hm]
        rw [dictGet?_dictSet_other (dictSet params "-evalue" (.rat a))
          "-max_target_seqs" "-evalue" (.int b) (by decide)]
        exact dictGet?_dictSet_self params "-evalue" (.rat a)
      · intro hv; exact absurd hv (by simp)
      · intro v hv
        injection hv with hv2
        subst hv2
        simp only [blast_params, he, hm]
        exact dictGet?_dictSet_self (dictSet params "-evalue" (.rat a)) "-max_target_seqs" (.int b)
      · intro hv; exact absurd hv (by simp)
      · intro k h1 h2
        simp only [blast_params, he, hm]
        rw [dictGet?_dictSet_other (dictSet params "-evalue" (.rat a))
          "-max_target_seqs" k (.int b) h2]
        exact dictGet?_dictSet_other params "-evalue" k (.rat a) h1

/-- Witness for C7 at a concrete base mapping and filtering request. -/
theorem C7_witness :
    dictGet? (blast_params [("-outfmt", .str "6")]
        { e_value := some (1 / 100), max_targets := some 5 }) "-evalue" =
      some (.rat (1 / 100))
  ∧ dictGet? (blast_params [("-outfmt", .str "6")]
        { e_value := some (1 / 100), max_targets := some 5 }) "-outfmt" =
      some (.str "6") :=
  ⟨(C7_blast_params_contract [("-outfmt", .str "6")]
      { e_value := some (1 / 100), max_targets := some 5 }).1 (1 / 100) rfl,
   (C7_blast_params_contract [("-outfmt", .str "6")]
      { e_value := some (1 / 100), max_targets := some 5 }).2.2.2.2 "-outfmt"
      (by decide) (by decide)⟩

/-- Claim C1 (code bug): evaluating the filter at the claim's own example —
rows whose coverage fields are "95.0" and "100.0", min_coverage = 0.97, a
format spec containing both markers — keeps BOTH rows. The loop compares the
raw string field against the float threshold, and in Python 2 a string never
compares less than a number, so no row is ever dropped; the claim (and the
spec) require a numeric comparison that drops the "95.0" row. -/
theorem C1_filter_keeps_low_coverage_row :
    (BLASTquery.filter demoFiltering (some demoOutfmt) demoLines).2 = .ok demoLines := by
  rfl

/-- Claim C6: when a threshold is requested whose marker is absent from the
output-format string, `filter` fails with one of the two "column not available
for filtering" configuration errors (plain exceptions, lines 92-95), and its
filesystem trace is empty — the failure happens before the output file is
read or modified in any way. -/
theorem C6_precondition_check (filtering : Filtering) (f : String) (lines : List String)
    (h : (filtering.min_coverage.isSome = true ∧ strContains f "qcovs" = false)
       ∨ (filtering.min_identity.isSome = true ∧ strContains f "pident" = false)) :
    (BLASTquery.filter filtering (some f) lines).1 = []
  ∧ ((BLASTquery.filter filtering (some f) lines).2 = .error (.exception covErrMsg)
   ∨ (BLASTquery.filter filtering (some f) lines).2 = .error (.exception idyErrMsg)) := by
  rcases h with ⟨hc, hs⟩ | ⟨hi, hs⟩
  · rcases Option.isSome_iff_exists.mp hc with ⟨c, hc2⟩
    have hcc : checkCoverage filtering (some f) = .error (.exception covErrMsg) := by
      simp [checkCoverage, hc2, hs]
    refine ⟨?_, Or.inl ?_⟩ <;> simp [BLASTquery.filter, hcc]
  · rcases Option.isSome_iff_exists.mp hi with ⟨i, hi2⟩
    cases hmc : filtering.min_coverage with
    | none =>
      have hcc : checkCoverage filtering (some f) = .ok () := by simp [checkCoverage, hmc]
      have hii : checkIdentity filtering (some f) = .error (.exception idyErrMsg) := by
        simp [checkIdentity, hi2, hs]
      refine ⟨?_, Or.inr ?_⟩ <;> simp [BLASTquery.filter, hcc, hii]
    | some c =>
      cases hq : strContains f "qcovs" with
      | false =>
        have hcc : checkCoverage filtering (some f) = .error (.exception covErrMsg) := by
          simp [checkCoverage, hmc, hq]
        refine ⟨?_, Or.inl ?_⟩ <;> simp [BLASTquery.filter, hcc]
      | true =>
        have hcc : checkCoverage filtering (some f) = .ok () := by
          simp [checkCoverage, hmc, hq]
        have hii : checkIdentity filtering (some f) = .error (.exception idyErrMsg) := by
          simp [checkIdentity, hi2, hs]
        refine ⟨?_, Or.inr ?_⟩ <;> simp [BLASTquery.filter, hcc, hii]

/-- Witness for C6 at a concrete request: min_coverage filtering against a
format spec without the coverage marker. -/
theorem C6_witness :
    (BLASTquery.filter { min_coverage := some (1 / 2) } (some "6 pident") ["x"]).1 = []
  ∧ ((BLASTquery.filter { min_coverage := some (1 / 2) } (some "6 pident") ["x"]).2 =
       .error (.exception covErrMsg)
   ∨ (BLASTquery.filter { min_coverage := some (1 / 2) } (some "6 pident") ["x"]).2 =
       .error (.exception idyErrMsg)) :=
  C6_precondition_check { min_coverage := some (1 / 2) } "6 pident" ["x"]
    (Or.inl ⟨rfl, by decide⟩)

/-- Claim C9: the generator body computes the positions of BOTH markers in
`params['-outfmt']` unconditionally, whatever thresholds were requested. So
whenever the documented precondition checks pass (or do not apply), a missing
`'-outfmt'` key still raises a `KeyError` and a missing marker token still
raises `list.index`'s `ValueError` — errors distinct from the documented
"column not available for filtering" exception. -/
theorem C9_marker_positions_unconditional :
    (∀ (filtering : Filtering) (lines : List String),
      (BLASTquery.filter filtering none lines).2 = .error (.keyError "-outfmt"))
  ∧ (∀ (filtering : Filtering) (f : String) (lines : List String),
      checkCoverage filtering (some f) = .ok () →
      checkIdentity filtering (some f) = .ok () →
      ("qcovs" ∉ outfmtTokens f ∨ "pident" ∉ outfmtTokens f) →
      (BLASTquery.filter filtering (some f) lines).2 = .error (.valueError idxErrMsg)) := by
  constructor
  · intro filtering lines
    cases hmc : filtering.min_coverage with
    | some c => simp [BLASTquery.filter, checkCoverage, hmc]
    | none =>
      cases hmi : filtering.min_identity with
      | some i => simp [BLASTquery.filter, checkCoverage, checkIdentity, hmc, hmi]
      | none =>
        simp [BLASTquery.filter, checkCoverage, checkIdentity, filterBody, hmc, hmi]
  · intro filtering f lines h1 h2 h3
    rcases h3 with hq | hp
    · have hqe := pyIndex_not_mem (outfmtTokens f) "qcovs" hq
      simp [BLASTquery.filter, filterBody, h1, h2, hqe]
    · rcases pyIndex_shape (outfmtTokens f) "qcovs" with ⟨i, hq⟩ | hq
      · have hpe := pyIndex_not_mem (outfmtTokens f) "pident" hp
        simp [BLASTquery.filter, filterBody, h1, h2, hq, hpe]
      · simp [BLASTquery.filter, filterBody, h1, h2, hq]

/-- Witness for C9: an empty filtering request still raises — a `KeyError`
when the params mapping has no `'-outfmt'` entry, and a `ValueError` when the
format spec "6" lacks the marker tokens. -/
theorem C9_witness :
    (BLASTquery.filter {} none ["row"]).2 = .error (.keyError "-outfmt")
  ∧ (BLASTquery.filter {} (some "6") ["row"]).2 = .error (.valueError idxErrMsg) :=
  ⟨C9_marker_positions_unconditional.1 {} ["row"],
   C9_marker_positions_unconditional.2 {} "6" ["row"] rfl rfl (Or.inl (by decide))⟩

/-- Claim C8: the filter is idempotent. If a run of the filter succeeds and
keeps the rows `kept`, then running the filter again with the same thresholds
and format spec on `kept` succeeds, keeps exactly `kept` again, and leaves the
output file holding `kept` — the per-row keep predicate accepts every row it
already accepted. -/
theorem C8_filter_idempotent (filtering : Filtering) (outfmt : Option String)
    (lines kept : List String)
    (h : (BLASTquery.filter filtering outfmt lines).2 = .ok kept) :
    (BLASTquery.filter filtering outfmt kept).2 = .ok kept
  ∧ (fsRun (BLASTquery.filter filtering outfmt kept).1
      { out_file := some kept, temp_file := none }).out_file = some kept := by
  cases hc : checkCoverage filtering outfmt with
  | error e => rw [BLASTquery.filter] at h; rw [hc] at h; exact absurd h (by simp)
  | ok u =>
    cases hi : checkIdentity filtering outfmt with
    | error e =>
      rw [BLASTquery.filter] at h; rw [hc, hi] at h; exact absurd h (by simp)
    | ok u2 =>
      cases outfmt with
      | none =>
        rw [BLASTquery.filter] at h; rw [hc, hi] at h
        exact absurd h (by simp [filterBody])
      | some f =>
        cases hq : pyIndex (outfmtTokens f) "qcovs" with
        | error e =>
          rw [BLASTquery.filter] at h; rw [hc, hi] at h
          simp [filterBody, hq] at h
        | ok ci =>
          cases hp : pyIndex (outfmtTokens f) "pident" with
          | error e =>
            rw [BLASTquery.filter] at h; rw [hc, hi] at h
            simp [filterBody, hq, hp] at h
          | ok pj =>
            cases hl : filter_lines ((filtering.min_coverage.getD 0) * 100)
                ((filtering.min_identity.getD 0) * 100) ((ci : Int) - 1) ((pj : Int) - 1)
                lines with
            | error e =>
              rw [BLASTquery.filter] at h; rw [hc, hi] at h
              simp [filterBody, hq, hp, hl] at h
            | ok kept0 =>
              rw [BLASTquery.filter] at h; rw [hc, hi] at h
              simp only [filterBody, hq, hp, hl] at h
              injection h with h2
              subst h2
              have h4 := filter_lines_idem _ _ _ _ _ _ hl
              constructor
              · simp [BLASTquery.filter, filterBody, hc, hi, hq, hp, h4]
              · simp [BLASTquery.filter, filterBody, hc, hi, hq, hp, h4, fsRun, FSOp.apply]

/-- Witness for C8 at a concrete successful run. -/
theorem C8_witness :
    (BLASTquery.filter demoFiltering (some demoOutfmt) demoLines).2 = .ok demoLines
  ∧ (fsRun (BLASTquery.filter demoFiltering (some demoOutfmt) demoLines).1
      { out_file := some demoLines, temp_file := none }).out_file = some demoLines :=
  C8_filter_idempotent demoFiltering (some demoOutfmt) demoLines demoLines (by rfl)

/-- Claim C5, counterexample part: the replacement is not atomic. On the
concrete successful run, interrupting after four completed filesystem
operations — createTemp, readOut, writeTemp, removeOut, i.e. before the
replacement (the final move) has succeeded — leaves the original output file
ABSENT, contradicting the claim that it remains present and unmodified at any
interruption point before the replacement succeeds. -/
theorem C5_counterexample :
    FSOp.moveTempToOut ∉ ((BLASTquery.filter demoFiltering (some demoOutfmt) demoLines).1.take 4)
  ∧ (fsRun ((BLASTquery.filter demoFiltering (some demoOutfmt) demoLines).1.take 4)
      { out_file := some demoLines, temp_file := none }).out_file = none := by
  constructor
  · decide
  · rfl

/-- Claim C5 (amended): the filter writes the surviving rows to a separate
temporary file first; on success its filesystem trace is exactly createTemp,
readOut, writeTemp, removeOut (delete the original), moveTempToOut (move the
temp file into place), after which the output file holds the survivors. Every
failure of the filter happens before the remove step, and at any interruption
point before the remove step the original file is still present and
unmodified; but between the remove and the move the original is absent — the
remove-then-move replacement is not atomic. -/
theorem C5_filter_swap_amended (filtering : Filtering) (outfmt : Option String)
    (lines : List String) :
    (∀ kept, (BLASTquery.filter filtering outfmt lines).2 = .ok kept →
      (BLASTquery.filter filtering outfmt lines).1 =
        [FSOp.createTemp, FSOp.readOut, FSOp.writeTemp kept, FSOp.removeOut, FSOp.moveTempToOut]
      ∧ (fsRun (BLASTquery.filter filtering outfmt lines).1
          { out_file := some lines, temp_file := none }).out_file = some kept)
  ∧ (∀ e, (BLASTquery.filter filtering outfmt lines).2 = .error e →
      FSOp.removeOut ∉ (BLASTquery.filter filtering outfmt lines).1)
  ∧ (∀ n, FSOp.removeOut ∉ ((BLASTquery.filter filtering outfmt lines).1.take n) →
      (fsRun ((BLASTquery.filter filtering outfmt lines).1.take n)
        { out_file := some lines, temp_file := none }).out_file = some lines) := by
  rcases filter_shape filtering outfmt lines with ⟨e, hf⟩ | ⟨e, hf⟩ | ⟨e, hf⟩ | ⟨kept, hf⟩ <;>
      rw [hf] <;> refine ⟨?_, ?_, ?_⟩
  · intro k hk; exact absurd hk (by simp)
  · intro e2 he2; simp
  · intro n hn; simp [fsRun]
  · intro k hk; exact absurd hk (by simp)
  · intro e2 he2; simp
  · intro n hn
    rcases n with _ | m
    · rfl
    · simp [fsRun, FSOp.apply]
  · intro k hk; exact absurd hk (by simp)
  · intro e2 he2; simp
  · intro n hn
    rcases n with _ | _ | m
    · rfl
    · simp [fsRun, FSOp.apply]
    · simp [fsRun, FSOp.apply]
  · intro k hk
    have hk2 : kept = k := by
      have := hk
      simp at this
      exact this
    subst hk2
    exact ⟨rfl, by simp [fsRun, FSOp.apply]⟩
  · intro e2 he2; exact absurd he2 (by simp)
  · intro n hn
    rcases n with _ | _ | _ | _ | m
    · rfl
    · simp [fsRun, FSOp.apply]
    · simp [fsRun, FSOp.apply]
    · simp [fsRun, FSOp.apply]
    · exact absurd (by simp [List.take_succ_cons] : FSOp.removeOut ∈ _) hn

/-- Witness for C5's amended theorem: on the concrete run, after the first two
operations (before the remove step) the original output file is untouched. -/
theorem C5_witness :
    (fsRun ((BLASTquery.filter demoFiltering (some demoOutfmt) demoLines).1.take 2)
      { out_file := some demoLines, temp_file := none }).out_file = some demoLines :=
  (C5_filter_swap_amended demoFiltering (some demoOutfmt) demoLines).2.2 2 (by decide)
